import Mathlib

/-!
Shallow embedding of the Harry Potter character quiz application
(`App7.py`, with trained artifacts produced by `train_model.py`).

The embedding covers:
* the session shuffle manager (question order, per-question option order
  caching, display strings and display-string → model-code mapping,
  selection restoration),
* the submit handler (completeness validation, per-feature label-encoder
  transform, predict, target decode, submission recording),
* the submission recorder (`update_user_submissions` over the workbook),
* session state and `reset_quiz_state`.

Randomness (`random.shuffle`, `DataFrame.sample`) is modelled by passing the
freshly drawn permutation in as an argument: the code consumes a shuffle
result, it does not compute one.
-/

/-- A model answer code: one of "A".."E", or "INVALID" for the placeholder. -/
abbrev Code := String

/-- One row of the questions_and_answers sheet after the column renaming in
`load_quiz_data`: a question text with option texts for codes A..E. -/
structure QuestionRow where
  question : String
  optionA : String
  optionB : String
  optionC : String
  optionD : String
  optionE : String
deriving Repr, DecidableEq

/-- The `feature_cols` list of App7.py. -/
def feature_cols : List String := ["A1", "A2", "A3", "A4", "A5"]

/-- The placeholder entry prepended to every rendered option list. -/
def PLACEHOLDER : String := "--- Please Select ---"

/-- The ordered (model_code, option_text) pairs of a question, as built by
`original_options = {'A': row['Option A'], ...}` followed by
`list(original_options.items())`. -/
def original_options (r : QuestionRow) : List (Code × String) :=
  [("A", r.optionA), ("B", r.optionB), ("C", r.optionC),
   ("D", r.optionD), ("E", r.optionE)]

/-- The display letter for a display position: `chr(ord('A') + idx)`. -/
def displayLabel (idx : Nat) : Char := Char.ofNat (65 + idx)

/-- The rendered display string for an option at display position `idx`:
the f-string `f"{display_label}. {option_text}"`. -/
def displayString (idx : Nat) (optionText : String) : String :=
  String.mk [displayLabel idx] ++ ". " ++ optionText

/-- `display_options_with_placeholder`: the placeholder followed by the
display string of each shuffled option pair in order. -/
def displayOptionsWithPlaceholder (pairs : List (Code × String)) : List String :=
  PLACEHOLDER :: (pairs.enum.map fun ip => displayString ip.1 ip.2.2)

/-- `current_question_option_mapping`: display string → model code, built in
display order. -/
def currentQuestionOptionMapping (pairs : List (Code × String)) :
    List (String × Code) :=
  pairs.enum.map fun ip => (displayString ip.1 ip.2.2, ip.2.1)

/-- The session key `f"q_{i}"` used in `shuffled_options_map`. -/
def qKey (i : Nat) : String := "q_" ++ toString i

/-- The per-session cache `st.session_state.shuffled_options_map`. -/
abbrev OptionsMap := List (String × List (Code × String))

/-- The option-order caching of the render loop: if `q_i` is already in the
map the stored order is used and the map is untouched; otherwise the freshly
drawn shuffle (the `random.shuffle` result, passed in as `freshShuffle`) is
used and stored. Returns the option order used and the updated map. -/
def getShuffledOptions (freshShuffle : List (Code × String))
    (m : OptionsMap) (i : Nat) : List (Code × String) × OptionsMap :=
  match m.lookup (qKey i) with
  | some stored => (stored, m)
  | none => (freshShuffle, (qKey i, freshShuffle) :: m)

/-- Outputs of repeated renders of question `i`: each render draws its own
fresh shuffle candidate from the list and threads the cache. -/
def renderOutputs : List (List (Code × String)) → OptionsMap → Nat →
    List (List (Code × String))
  | [], _, _ => []
  | f :: fs, m, i =>
    let r := getShuffledOptions f m i
    r.1 :: renderOutputs fs r.2 i

/-- Selection restoration: `display_options_with_placeholder.index(stored)`
with the `ValueError` handler falling back to index 0. -/
def restoreSelectionIndex (opts : List String) (stored : String) : Nat :=
  match opts.findIdx? (fun o => o == stored) with
  | some n => n
  | none => 0

/-! ## The inference pipeline of the submit handler -/

/-- A fitted `LabelEncoder.transform` on a single value: the index of the
value in the encoder's (sorted, duplicate-free) `classes_` list, or `none`
where sklearn raises `ValueError` for an unseen value. -/
def leTransform (classes : List Code) (x : Code) : Option Nat :=
  classes.findIdx? (fun c => c == x)

/-- `LabelEncoder.inverse_transform` on a single integer label. -/
def leInverseTransform (classes : List String) (n : Nat) : Option String :=
  classes.get? n

/-- The loaded artifacts: `label_encoders` (feature column → `classes_`),
the classifier's predict on one encoded row, and the target encoder's
`classes_`. -/
structure Artifacts where
  label_encoders : List (String × List Code)
  model : List Nat → Nat
  target_classes : List String

/-- Failures of the encoding loop, in the order the loop checks them. -/
inductive EncodeError
  | missingEncoder (col : String)
  | unseen (col : String) (code : Code)
deriving Repr, DecidableEq

/-- The encoding loop `for col_name, coded_ans in zip(feature_cols,
current_answers_for_model)`: per column, fail if no encoder is present,
then fail if the code is unseen (`ValueError` from `le.transform`);
otherwise collect the encoded values in column order. `st.stop()` at the
first failure is modelled by stopping at the first error. -/
def encodeAnswers (encs : List (String × List Code)) :
    List (String × Code) → Except EncodeError (List Nat)
  | [] => .ok []
  | (col, ans) :: rest =>
    match encs.lookup col with
    | none => .error (.missingEncoder col)
    | some classes =>
      match leTransform classes ans with
      | none => .error (.unseen col ans)
      | some v =>
        match encodeAnswers encs rest with
        | .error e => .error e
        | .ok vs => .ok (v :: vs)

/-- What the submit handler leaves on screen for this attempt. -/
inductive Display
  | warnIncomplete
  | errMissingEncoder (col : String)
  | errUnseen (col : String) (code : Code)
  | errSaveFailed
  | results (name : String) (character : String)
  | errUnexpected
deriving Repr, DecidableEq

/-- Whether a display is the results view showing a predicted character. -/
def Display.isResults : Display → Bool
  | .results _ _ => true
  | _ => false

/-- Instrumented outcome of one press of "Submit My Answers": what is
displayed, whether `model.predict` was invoked, whether
`update_user_submissions` was invoked, and the predicted character
computed during the attempt (if any). -/
structure SubmitResult where
  display : Display
  predictCalled : Bool
  recordAttempted : Bool
  prediction : Option String
deriving Repr, DecidableEq

/-- The submit handler (App7.py lines 214-253). `answers` is
`current_answers_for_model`; the quiz is complete exactly when no entry is
"INVALID". `writeOk` is the boolean returned by `update_user_submissions`.
An out-of-range predicted label (impossible `inverse_transform`) lands in
the outer `except Exception` arm. -/
def runSubmit (art : Artifacts) (writeOk : Bool) (userName : String)
    (answers : List Code) : SubmitResult :=
  if answers.contains "INVALID" then
    { display := .warnIncomplete, predictCalled := false,
      recordAttempted := false, prediction := none }
  else
    match encodeAnswers art.label_encoders (feature_cols.zip answers) with
    | .error (.missingEncoder c) =>
      { display := .errMissingEncoder c, predictCalled := false,
        recordAttempted := false, prediction := none }
    | .error (.unseen c a) =>
      { display := .errUnseen c a, predictCalled := false,
        recordAttempted := false, prediction := none }
    | .ok encoded =>
      match leInverseTransform art.target_classes (art.model encoded) with
      | none =>
        { display := .errUnexpected, predictCalled := true,
          recordAttempted := false, prediction := none }
      | some character =>
        if writeOk then
          { display := .results userName character, predictCalled := true,
            recordAttempted := true, prediction := some character }
        else
          { display := .errSaveFailed, predictCalled := true,
            recordAttempted := true, prediction := some character }

/-! ## Answer collection order (feature-column pairing) -/

/-- The answer list built by the render loop: the loop iterates the rows of
`shuffled_questions_df` (whose index was reset, so row `d` is the question
shown at display position `d`); `questionOrder` maps display position to
the question's original row, and `answerOf j` is the user's chosen code for
the question at original row `j`. `current_answers_for_model` therefore
collects answers in display order. -/
def collectAnswers (questionOrder : List Nat) (answerOf : Nat → Code) :
    List Code :=
  questionOrder.map answerOf

/-- The pairing `zip(feature_cols, current_answers_for_model)` used both to
encode features and to build the submission row. -/
def recordedAnswers (questionOrder : List Nat) (answerOf : Nat → Code) :
    List (String × Code) :=
  feature_cols.zip (collectAnswers questionOrder answerOf)

/-! ## Submission recorder -/

/-- A workbook sheet row and the workbook as an ordered sheet-name map. -/
abbrev Row := List String

/-- The workbook: `pd.read_excel(..., sheet_name=None)` as an ordered
association list of sheet name → rows. -/
abbrev Workbook := List (String × List Row)

/-- Dict assignment `all_sheets[name] = rows`: replace the binding if the
key is present, else add it at the end. -/
def setSheet : Workbook → String → List Row → Workbook
  | [], name, rows => [(name, rows)]
  | (n, r) :: rest, name, rows =>
    if n = name then (n, rows) :: rest else (n, r) :: setSheet rest name rows

/-- `update_user_submissions`: read all sheets, take user_submissions (or an
empty sheet), concatenate the new entry rows, and write every sheet back. -/
def update_user_submissions (wb : Workbook) (newRows : List Row) : Workbook :=
  let userSub := ((wb.lookup "user_submissions").getD []) ++ newRows
  setSheet wb "user_submissions" userSub

/-! ## Session state and reset -/

/-- The session-state fields App7.py touches. `shuffled_questions_df` is
kept abstractly as the question order it encodes (display position →
original row); `q_mappings` are the `q_{i}_mapping` entries stored at line
181. -/
structure SessionState where
  quiz_submitted : Bool
  user_name_input : String
  quiz_selections_display : List (String × String)
  shuffled_questions_df : Option (List Nat)
  shuffled_options_map : Option OptionsMap
  predicted_character : Option String
  user_name_display : Option String
  q_mappings : List (String × List (String × Code))
deriving DecidableEq

/-- `reset_quiz_state`: clear the submitted flag, the name input and the
selections, and delete the shuffled questions and the shuffled options map.
No other key is touched. -/
def reset_quiz_state (s : SessionState) : SessionState :=
  { s with
    quiz_submitted := false
    user_name_input := ""
    quiz_selections_display := []
    shuffled_questions_df := none
    shuffled_options_map := none }

/-- The shuffling block (App7.py lines 117-122): when the quiz is not
submitted and no shuffled questions are stored, store a freshly drawn
question order and an empty options map. -/
def ensureShuffled (freshOrder : List Nat) (s : SessionState) : SessionState :=
  if s.quiz_submitted then s
  else
    match s.shuffled_questions_df with
    | some _ => s
    | none =>
      { s with
        shuffled_questions_df := some freshOrder
        shuffled_options_map := some [] }

/-! ## Concrete fixtures used by witnesses -/

/-- The vocabulary every feature encoder is fitted on in the training data. -/
def exClasses : List Code := ["A", "B", "C", "D", "E"]

/-- A concrete artifact set: every feature column has an encoder fitted on
codes A..E, the classifier constantly predicts label 2, and the target
classes are the five characters in sorted order. -/
def exArtifacts : Artifacts :=
  { label_encoders :=
      [("A1", exClasses), ("A2", exClasses), ("A3", exClasses),
       ("A4", exClasses), ("A5", exClasses)]
    model := fun _ => 2
    target_classes :=
      ["Draco Malfoy", "Harry Potter", "Hermione Granger",
       "Neville Longbottom", "Ron Weasley"] }

/-- A concrete user answer map for the original question rows: the answer
to original question `n` is the n-th code. -/
def exAnswerOf : Nat → Code := fun n => ["A", "B", "C", "D", "E"].getD n "INVALID"

/-- A concrete submitted session, about to be reset. -/
def exSubmittedState : SessionState :=
  { quiz_submitted := true
    user_name_input := "Sam"
    quiz_selections_display := [("q_0", "A. x")]
    shuffled_questions_df := some [1, 0, 2, 3, 4]
    shuffled_options_map := some [("q_0", [("B", "y"), ("A", "x")])]
    predicted_character := some "Harry Potter"
    user_name_display := some "Sam"
    q_mappings := [("q_0_mapping", [("A. x", "B")])] }

/-- A feature slot whose code has an encoder but is absent from that
encoder's vocabulary (where `le.transform` raises `ValueError`). -/
def unseenAt (encs : List (String × List Code)) (p : String × Code) : Bool :=
  match encs.lookup p.1 with
  | some classes => (leTransform classes p.2).isNone
  | none => false

/-- A concrete question row. -/
def exQuestionRow : QuestionRow :=
  { question := "Q", optionA := "oa", optionB := "ob", optionC := "oc",
    optionD := "od", optionE := "oe" }

/-! ## Helper lemmas -/

/-- A successful `findIdx?` returns an index whose entry satisfies the
predicate. -/
theorem findIdx?_some_get {α : Type} (p : α → Bool) :
    ∀ (l : List α) (n : Nat), l.findIdx? p = some n →
      ∃ x, l.get? n = some x ∧ p x = true := by
  intro l
  induction l with
  | nil => intro n h; simp [List.findIdx?] at h
  | cons a t ih =>
    intro n h
    rw [List.findIdx?_cons] at h
    by_cases hpa : p a = true
    · simp [hpa] at h
      exact h ▸ ⟨a, rfl, hpa⟩
    · simp [hpa, List.findIdx?_succ] at h
      cases hf : t.findIdx? p with
      | none => rw [hf] at h; simp at h
      | some m =>
        rw [hf] at h
        simp at h
        obtain ⟨x, hx, hpx⟩ := ih m hf
        exact h ▸ ⟨x, hx, hpx⟩

/-- After a render, the options map holds the order that render returned. -/
theorem lookup_after_render (f : List (Code × String)) (m : OptionsMap)
    (i : Nat) :
    ((getShuffledOptions f m i).2).lookup (qKey i) =
      some ((getShuffledOptions f m i).1) := by
  unfold getShuffledOptions
  cases h : m.lookup (qKey i) <;> simp [h, List.lookup_cons]

/-- A render on a map that already holds an order for `q_i` returns that
order and leaves the map unchanged. -/
theorem render_stable (f : List (Code × String)) (m : OptionsMap) (i : Nat)
    (v : List (Code × String)) (h : m.lookup (qKey i) = some v) :
    getShuffledOptions f m i = (v, m) := by
  simp [getShuffledOptions, h]

/-- Once the map holds an order for `q_i`, every later render outputs it. -/
theorem renderOutputs_const (i : Nat) (v : List (Code × String)) :
    ∀ (fs : List (List (Code × String))) (m : OptionsMap),
      m.lookup (qKey i) = some v →
      renderOutputs fs m i = fs.map (fun _ => v) := by
  intro fs
  induction fs with
  | nil => intro m _; rfl
  | cons f rest ih =>
    intro m h
    simp only [renderOutputs, render_stable f m i v h, List.map_cons]
    exact congrArg _ (ih m h)

/-! ## Claims -/

/-- C4: once a question's option order has been generated it is cached and
reused verbatim on every subsequent render until reset: however many further
renders happen (each drawing its own fresh shuffle candidate), every output
equals the first render's option order, and the display strings with their
A, B, C, ... labels are identical each time. -/
theorem option_order_cached_forever (fs : List (List (Code × String)))
    (f : List (Code × String)) (m : OptionsMap) (i : Nat) :
    ∀ o ∈ renderOutputs (f :: fs) m i,
      o = (getShuffledOptions f m i).1 ∧
      displayOptionsWithPlaceholder o =
        displayOptionsWithPlaceholder ((getShuffledOptions f m i).1) := by
  intro o ho
  suffices h : o = (getShuffledOptions f m i).1 from ⟨h, congrArg _ h⟩
  have hro : renderOutputs (f :: fs) m i =
      (getShuffledOptions f m i).1 ::
        fs.map (fun _ => (getShuffledOptions f m i).1) := by
    simp only [renderOutputs]
    exact congrArg _
      (renderOutputs_const i _ fs (getShuffledOptions f m i).2
        (lookup_after_render f m i))
  rw [hro] at ho
  rcases List.mem_cons.mp ho with h | h
  · exact h
  · obtain ⟨a, _, ha⟩ := List.mem_map.mp h
    exact ha.symm

/-- Witness for C4: two renders of question 0 from an empty cache, the
second with a different fresh shuffle candidate, both output the first
order. -/
theorem option_order_cached_forever_witness :
    ([("A", "x"), ("B", "y")] ∈
        renderOutputs [[("A", "x"), ("B", "y")], [("B", "y"), ("A", "x")]]
          [] 0) ∧
      ([("A", "x"), ("B", "y")] =
          (getShuffledOptions [("A", "x"), ("B", "y")] [] 0).1 ∧
        displayOptionsWithPlaceholder [("A", "x"), ("B", "y")] =
          displayOptionsWithPlaceholder
            ((getShuffledOptions [("A", "x"), ("B", "y")] [] 0).1)) :=
  ⟨by decide,
    option_order_cached_forever [[("B", "y"), ("A", "x")]]
      [("A", "x"), ("B", "y")] [] 0 [("A", "x"), ("B", "y")] (by decide)⟩

/-- C7: selection restoration is total and never raises: when the stored
display string occurs in the current option list, the restored index points
at it; when it does not occur, the index defaults to display position 0
(the placeholder). -/
theorem restore_selection_total (opts : List String) (stored : String) :
    (stored ∈ opts →
      opts.get? (restoreSelectionIndex opts stored) = some stored) ∧
    (stored ∉ opts → restoreSelectionIndex opts stored = 0) := by
  constructor
  · intro hmem
    cases hf : opts.findIdx? (fun o => o == stored) with
    | none =>
      exfalso
      rw [List.findIdx?_eq_none_iff] at hf
      have := hf stored hmem
      simp at this
    | some n =>
      obtain ⟨x, hx, hpx⟩ := findIdx?_some_get _ opts n hf
      have hxs : x = stored := by simpa using hpx
      rw [restoreSelectionIndex, hf]
      exact hxs ▸ hx
  · intro hnm
    cases hf : opts.findIdx? (fun o => o == stored) with
    | none => simp [restoreSelectionIndex, hf]
    | some n =>
      exfalso
      obtain ⟨x, hx, hpx⟩ := findIdx?_some_get _ opts n hf
      have hxs : x = stored := by simpa using hpx
      exact hnm (hxs ▸ List.get?_mem hx)

/-- Witness for C7: a present stored string is re-identified, an absent one
falls back to index 0. -/
theorem restore_selection_total_witness :
    ("A. x" ∈ [PLACEHOLDER, "A. x"] ∧
      [PLACEHOLDER, "A. x"].get?
        (restoreSelectionIndex [PLACEHOLDER, "A. x"] "A. x") = some "A. x") ∧
    ("B. y" ∉ [PLACEHOLDER, "A. x"] ∧
      restoreSelectionIndex [PLACEHOLDER, "A. x"] "B. y" = 0) :=
  ⟨⟨by decide, (restore_selection_total [PLACEHOLDER, "A. x"] "A. x").1
      (by decide)⟩,
    ⟨by decide, (restore_selection_total [PLACEHOLDER, "A. x"] "B. y").2
      (by decide)⟩⟩

/-- C5: a submission with any UNANSWERED slot (coded "INVALID") is rejected
with the incomplete warning, the classifier is not invoked, and no
submission row is recorded. -/
theorem submit_incomplete_rejected (art : Artifacts) (writeOk : Bool)
    (userName : String) (answers : List Code)
    (h : "INVALID" ∈ answers) :
    runSubmit art writeOk userName answers =
      { display := .warnIncomplete, predictCalled := false,
        recordAttempted := false, prediction := none } := by
  have hc : answers.contains "INVALID" = true := List.elem_iff.mpr h
  simp [runSubmit, hc, h]

/-- Witness for C5: a concrete submission with the first slot unanswered. -/
theorem submit_incomplete_rejected_witness :
    "INVALID" ∈ ["INVALID", "A", "A", "A", "A"] ∧
      runSubmit exArtifacts true "Sam" ["INVALID", "A", "A", "A", "A"] =
        { display := .warnIncomplete, predictCalled := false,
          recordAttempted := false, prediction := none } :=
  ⟨by decide,
    submit_incomplete_rejected exArtifacts true "Sam"
      ["INVALID", "A", "A", "A", "A"] (by decide)⟩

/-- The predicted character computed by a submit run is a function of the
artifacts and the answers alone. -/
theorem runSubmit_prediction (art : Artifacts) (w : Bool) (userName : String)
    (answers : List Code) :
    (runSubmit art w userName answers).prediction =
      if answers.contains "INVALID" then none
      else
        match encodeAnswers art.label_encoders (feature_cols.zip answers) with
        | .error _ => none
        | .ok encoded =>
          leInverseTransform art.target_classes (art.model encoded) := by
  unfold runSubmit
  split
  · rfl
  · split <;> rename_i heq <;> rw [heq]
    rename_i encoded
    cases hinv : leInverseTransform art.target_classes (art.model encoded)
    · simp [hinv]
    · cases w <;> simp [hinv]

/-- C8: the encode→predict→decode pipeline is deterministic and depends
only on the answer tuple and the loaded artifacts: two submit runs with the
same artifacts and the same answers compute the same predicted character,
whatever the user name or the recording outcome of each run. -/
theorem pipeline_deterministic (art : Artifacts) (w1 w2 : Bool)
    (n1 n2 : String) (answers : List Code) :
    (runSubmit art w1 n1 answers).prediction =
      (runSubmit art w2 n2 answers).prediction := by
  rw [runSubmit_prediction, runSubmit_prediction]

/-- C2 counterexample: a concrete run in which the prediction succeeds
("Hermione Granger" is computed) but recording fails; the screen shows the
save-failure error, not the results view with the predicted character, so
the predicted character is not shown to the user. -/
theorem recording_failure_counterexample :
    (runSubmit exArtifacts false "Sam" ["A", "A", "A", "A", "A"]).prediction =
        some "Hermione Granger" ∧
      (runSubmit exArtifacts false "Sam" ["A", "A", "A", "A", "A"]).display =
        Display.errSaveFailed ∧
      Display.isResults
        (runSubmit exArtifacts false "Sam" ["A", "A", "A", "A", "A"]).display =
        false := by
  decide

/-- C2 (amended): when recording fails after a prediction has been computed,
the user gets the distinct save-failure notice, but the predicted character
is not shown: the display is the save-failure error, which is not the
results view. -/
theorem recording_failure_keeps_error (art : Artifacts) (userName : String)
    (answers : List Code) (ch : String)
    (h : (runSubmit art false userName answers).prediction = some ch) :
    (runSubmit art false userName answers).display = Display.errSaveFailed ∧
      Display.isResults Display.errSaveFailed = false := by
  refine ⟨?_, rfl⟩
  unfold runSubmit at h ⊢
  split at h
  · exact absurd h (by simp)
  next hna =>
    rw [if_neg hna]
    split at h <;> rename_i heq
    · simp at h
    · simp at h
    · rename_i encoded
      cases hinv : leInverseTransform art.target_classes (art.model encoded)
      · rw [hinv] at h
        simp at h
      · rfl

/-- Witness for the amended C2 at the concrete failing-recording run. -/
theorem recording_failure_keeps_error_witness :
    (runSubmit exArtifacts false "Sam" ["A", "A", "A", "A", "A"]).prediction =
        some "Hermione Granger" ∧
      ((runSubmit exArtifacts false "Sam" ["A", "A", "A", "A", "A"]).display =
          Display.errSaveFailed ∧
        Display.isResults Display.errSaveFailed = false) :=
  ⟨by decide,
    recording_failure_keeps_error exArtifacts "Sam" ["A", "A", "A", "A", "A"]
      "Hermione Granger" (by decide)⟩

/-- C3 counterexample: after resetting a concrete submitted session the
session still holds the previous prediction and the stale per-question
mapping entry, so it is not true that it holds none of the previous
session's prediction state. -/
theorem reset_keeps_prediction_counterexample :
    (reset_quiz_state exSubmittedState).predicted_character =
        some "Harry Potter" ∧
      (reset_quiz_state exSubmittedState).q_mappings =
        [("q_0_mapping", [("A. x", "B")])] ∧
      some "Harry Potter" ≠ (none : Option String) := by
  decide

/-- C3 (amended): reset discards the question order, the per-question
option-order map and all selections, clears the submitted flag and the name
input, and the next render derives a fresh randomization from a new draw;
but the previously predicted character, the displayed name and the stale
per-question mapping entries remain in the session. -/
theorem reset_quiz_state_spec (s : SessionState) (freshOrder : List Nat) :
    (reset_quiz_state s).quiz_submitted = false ∧
      (reset_quiz_state s).user_name_input = "" ∧
      (reset_quiz_state s).quiz_selections_display = [] ∧
      (reset_quiz_state s).shuffled_questions_df = none ∧
      (reset_quiz_state s).shuffled_options_map = none ∧
      (ensureShuffled freshOrder (reset_quiz_state s)).shuffled_questions_df =
        some freshOrder ∧
      (ensureShuffled freshOrder (reset_quiz_state s)).shuffled_options_map =
        some [] ∧
      (reset_quiz_state s).predicted_character = s.predicted_character ∧
      (reset_quiz_state s).user_name_display = s.user_name_display ∧
      (reset_quiz_state s).q_mappings = s.q_mappings := by
  refine ⟨rfl, rfl, rfl, rfl, rfl, ?_, ?_, rfl, rfl, rfl⟩
  · simp [ensureShuffled, reset_quiz_state]
  · simp [ensureShuffled, reset_quiz_state]

/-- C1: evaluation at the failing input. With question order [1, 0, 2, 3, 4]
(the question at original row 1 is displayed first) and a user whose answer
to original question 0 is "A" and to original question 1 is "B", the code
records "B" under feature column A1, not the answer "A" of the question at
original row 0: the pairing follows the shuffled display order. -/
theorem feature_pairing_by_display_order :
    List.Perm [1, 0, 2, 3, 4] [0, 1, 2, 3, 4] ∧
      exAnswerOf 0 = "A" ∧
      exAnswerOf 1 = "B" ∧
      (recordedAnswers [1, 0, 2, 3, 4] exAnswerOf).lookup "A1" = some "B" ∧
      ¬((recordedAnswers [1, 0, 2, 3, 4] exAnswerOf).lookup "A1" =
          some (exAnswerOf 0)) := by
  decide

/-- Writing a sheet makes it the one read back under its name. -/
theorem lookup_setSheet_self (name : String) (rows : List Row) :
    ∀ wb : Workbook, (setSheet wb name rows).lookup name = some rows := by
  intro wb
  induction wb with
  | nil => simp [setSheet, List.lookup_cons]
  | cons p rest ih =>
    obtain ⟨n, r⟩ := p
    by_cases h : n = name
    · subst h
      simp [setSheet, List.lookup_cons]
    · have hb : (name == n) = false := by
        simp [beq_iff_eq]
        exact fun he => h he.symm
      simp [setSheet, h, List.lookup_cons, hb, ih]

/-- Writing one sheet leaves every other sheet read back unchanged. -/
theorem lookup_setSheet_other (name other : String) (rows : List Row)
    (hne : other ≠ name) :
    ∀ wb : Workbook, (setSheet wb name rows).lookup other = wb.lookup other := by
  have hb : (other == name) = false := by
    simp [beq_iff_eq]
    exact hne
  intro wb
  induction wb with
  | nil => simp [setSheet, List.lookup_cons, hb]
  | cons p rest ih =>
    obtain ⟨n, r⟩ := p
    by_cases h : n = name
    · subst h
      simp [setSheet, List.lookup_cons, hb]
    · simp [setSheet, h, List.lookup_cons, ih]

/-- C9: a successful `update_user_submissions` call with one new entry row
appends exactly that row to the user_submissions sheet, preserving all
previously existing user_submissions rows, and every other sheet of the
workbook (questions_and_answers, the training-data sheet, any other) is
written back unchanged. -/
theorem update_user_submissions_frame (wb : Workbook) (entry : Row) :
    (update_user_submissions wb [entry]).lookup "user_submissions" =
        some (((wb.lookup "user_submissions").getD []) ++ [entry]) ∧
      (((wb.lookup "user_submissions").getD []) ++ [entry]).length =
        ((wb.lookup "user_submissions").getD []).length + 1 ∧
      ∀ name, name ≠ "user_submissions" →
        (update_user_submissions wb [entry]).lookup name = wb.lookup name := by
  refine ⟨?_, by simp, ?_⟩
  · exact lookup_setSheet_self "user_submissions" _ wb
  · intro name hne
    exact lookup_setSheet_other "user_submissions" name _ hne wb

/-- Witness for C9 on a concrete two-sheet workbook. -/
theorem update_user_submissions_frame_witness :
    (update_user_submissions
          [("questions_and_answers", [["q"]]),
           ("answers_training_data", [["t"]])]
          [["Sam", "A", "B", "C", "D", "E", "Harry Potter"]]).lookup
        "user_submissions" =
        some [["Sam", "A", "B", "C", "D", "E", "Harry Potter"]] ∧
      ("questions_and_answers" ≠ "user_submissions" ∧
        (update_user_submissions
            [("questions_and_answers", [["q"]]),
             ("answers_training_data", [["t"]])]
            [["Sam", "A", "B", "C", "D", "E", "Harry Potter"]]).lookup
          "questions_and_answers" = some [["q"]]) := by
  have h := update_user_submissions_frame
    [("questions_and_answers", [["q"]]), ("answers_training_data", [["t"]])]
    ["Sam", "A", "B", "C", "D", "E", "Harry Potter"]
  refine ⟨?_, by decide, ?_⟩
  · have h1 := h.1
    simpa using h1
  · have h3 := h.2.2 "questions_and_answers" (by decide)
    simpa using h3

/-- When every column in the list has an encoder and some column's code is
unseen, the encoding loop stops with an unseen-category error. -/
theorem encode_unseen_exists (encs : List (String × List Code)) :
    ∀ l : List (String × Code),
      (∀ p ∈ l, (encs.lookup p.1).isSome = true) →
      (∃ p ∈ l, unseenAt encs p = true) →
      ∃ c a, encodeAnswers encs l = .error (.unseen c a) := by
  intro l
  induction l with
  | nil =>
    intro _ hex
    simp at hex
  | cons hd tl ih =>
    obtain ⟨col, ans⟩ := hd
    intro hall hex
    obtain ⟨cls, hcls⟩ : ∃ cls, encs.lookup col = some cls := by
      have hs := hall (col, ans) (List.mem_cons_self _ _)
      cases h : encs.lookup col with
      | none => rw [h] at hs; simp at hs
      | some cls => exact ⟨cls, rfl⟩
    cases htr : leTransform cls ans with
    | none => exact ⟨col, ans, by simp [encodeAnswers, hcls, htr]⟩
    | some v =>
      have hex2 : ∃ p ∈ tl, unseenAt encs p = true := by
        rcases hex with ⟨p, hp, hu⟩
        rcases List.mem_cons.mp hp with rfl | hptl
        · exfalso
          simp [unseenAt, hcls, htr] at hu
        · exact ⟨p, hptl, hu⟩
      obtain ⟨c, a, htail⟩ :=
        ih (fun p hp => hall p (List.mem_cons_of_mem _ hp)) hex2
      exact ⟨c, a, by simp [encodeAnswers, hcls, htr, htail]⟩

/-- C6: a complete submission containing an answer code absent from the
corresponding feature encoder's trained vocabulary (every column having an
encoder) is aborted with an unseen-category error distinct from the
incomplete condition: the classifier is not invoked, recording is not
attempted, and no prediction is produced. -/
theorem unseen_category_aborts (art : Artifacts) (writeOk : Bool)
    (userName : String) (answers : List Code)
    (hcomplete : "INVALID" ∉ answers)
    (hall : ∀ p ∈ feature_cols.zip answers,
      (art.label_encoders.lookup p.1).isSome = true)
    (hunseen : ∃ p ∈ feature_cols.zip answers,
      unseenAt art.label_encoders p = true) :
    ∃ col code,
      runSubmit art writeOk userName answers =
        { display := .errUnseen col code, predictCalled := false,
          recordAttempted := false, prediction := none } ∧
      Display.errUnseen col code ≠ Display.warnIncomplete := by
  obtain ⟨c, a, henc⟩ :=
    encode_unseen_exists art.label_encoders (feature_cols.zip answers)
      hall hunseen
  have hc : answers.contains "INVALID" = false := by
    rw [← Bool.not_eq_true]
    intro hcon
    exact hcomplete (List.elem_iff.mp hcon)
  refine ⟨c, a, ?_, by simp⟩
  simp [runSubmit, hc, henc, hcomplete]

/-- Witness for C6: a complete submission whose first code "Z" is outside
the A..E vocabulary of the A1 encoder. -/
theorem unseen_category_aborts_witness :
    ("INVALID" ∉ ["Z", "A", "A", "A", "A"]) ∧
      (∀ p ∈ feature_cols.zip ["Z", "A", "A", "A", "A"],
        (exArtifacts.label_encoders.lookup p.1).isSome = true) ∧
      (∃ p ∈ feature_cols.zip ["Z", "A", "A", "A", "A"],
        unseenAt exArtifacts.label_encoders p = true) ∧
      ∃ col code,
        runSubmit exArtifacts true "Sam" ["Z", "A", "A", "A", "A"] =
          { display := .errUnseen col code, predictCalled := false,
            recordAttempted := false, prediction := none } ∧
        Display.errUnseen col code ≠ Display.warnIncomplete :=
  ⟨by decide, by decide, by decide,
    unseen_category_aborts exArtifacts true "Sam" ["Z", "A", "A", "A", "A"]
      (by decide) (by decide) (by decide)⟩

/-- The character data of a rendered display string: the display letter,
a dot, a space, then the option text. -/
theorem data_displayString (i : Nat) (t : String) :
    (displayString i t).data = displayLabel i :: '.' :: ' ' :: t.data := by
  rw [displayString, String.data_append, String.data_append]
  rfl

/-- Display strings with different display letters differ, whatever the
option texts. -/
theorem displayString_ne (i j : Nat) (a b : String)
    (h : displayLabel i ≠ displayLabel j) :
    displayString i a ≠ displayString j b := by
  intro he
  apply h
  have hd := congrArg String.data he
  rw [data_displayString, data_displayString] at hd
  injection hd

/-- The placeholder is never a rendered option display string, whenever the
display letter is not a dash. -/
theorem placeholder_ne_displayString (i : Nat) (t : String)
    (h : displayLabel i ≠ ('-' : Char)) :
    PLACEHOLDER ≠ displayString i t := by
  intro he
  apply h
  have hd := congrArg String.data he
  rw [data_displayString] at hd
  rw [show PLACEHOLDER.data = '-' :: "-- Please Select ---".data from rfl] at hd
  injection hd with h1 _
  exact h1.symm

/-- A list of length five is a literal five-element list. -/
theorem length5_cases {α : Type} (l : List α) (h : l.length = 5) :
    ∃ a b c d e, l = [a, b, c, d, e] := by
  rcases l with _ | ⟨a, _ | ⟨b, _ | ⟨c, _ | ⟨d, _ | ⟨e, _ | ⟨f, t⟩⟩⟩⟩⟩⟩
  · simp at h
  · simp at h
  · simp at h
  · simp at h
  · simp at h
  · exact ⟨a, b, c, d, e, rfl⟩
  · simp at h

/-- The codes stored in the option mapping are the codes of the shuffled
pairs, in display order. -/
theorem mapping_snd (pairs : List (Code × String)) :
    (currentQuestionOptionMapping pairs).map Prod.snd = pairs.map Prod.fst := by
  unfold currentQuestionOptionMapping
  rw [List.map_map]
  have h1 : (Prod.snd ∘ fun ip : Nat × (Code × String) =>
      (displayString ip.1 ip.2.2, ip.2.1)) = (Prod.fst ∘ Prod.snd) := rfl
  rw [h1, ← List.map_map, List.enum_map_snd]

/-- The keys of the option mapping are the rendered display strings, in
display order. -/
theorem mapping_fst (pairs : List (Code × String)) :
    (currentQuestionOptionMapping pairs).map Prod.fst =
      pairs.enum.map fun ip => displayString ip.1 ip.2.2 := by
  unfold currentQuestionOptionMapping
  rw [List.map_map]
  rfl

/-- The rendered option list is the placeholder followed by exactly the
mapping's keys. -/
theorem displayOptions_eq (pairs : List (Code × String)) :
    displayOptionsWithPlaceholder pairs =
      PLACEHOLDER :: (currentQuestionOptionMapping pairs).map Prod.fst := by
  rw [mapping_fst]
  rfl

/-- A five-element list with pairwise distinct entries has no duplicate. -/
theorem nodup_five {α : Type} (a b c d e : α)
    (h1 : a ≠ b) (h2 : a ≠ c) (h3 : a ≠ d) (h4 : a ≠ e)
    (h5 : b ≠ c) (h6 : b ≠ d) (h7 : b ≠ e)
    (h8 : c ≠ d) (h9 : c ≠ e) (h10 : d ≠ e) :
    ([a, b, c, d, e]).Nodup := by
  simp [List.nodup_cons, List.mem_cons, h1, h2, h3, h4, h5, h6, h7, h8, h9,
    h10]

/-- An element differing from all five entries is not a member. -/
theorem not_mem_five {α : Type} (x a b c d e : α)
    (h1 : x ≠ a) (h2 : x ≠ b) (h3 : x ≠ c) (h4 : x ≠ d) (h5 : x ≠ e) :
    x ∉ ([a, b, c, d, e]) := by
  simp [List.mem_cons, h1, h2, h3, h4, h5]

/-- C10: for a question's shuffled option pairs (any permutation of the
original five (code, text) pairs), the mapping from display strings back to
model codes covers each original code A..E exactly once, its display-string
keys are pairwise distinct (each maps to exactly one code), the
non-placeholder display options are exactly those keys, and the placeholder
is never such a key. -/
theorem shuffled_options_permutation (r : QuestionRow)
    (pairs : List (Code × String))
    (hperm : pairs.Perm (original_options r)) :
    ((currentQuestionOptionMapping pairs).map Prod.snd).Perm
        ["A", "B", "C", "D", "E"] ∧
      ((currentQuestionOptionMapping pairs).map Prod.fst).Nodup ∧
      displayOptionsWithPlaceholder pairs =
        PLACEHOLDER :: (currentQuestionOptionMapping pairs).map Prod.fst ∧
      PLACEHOLDER ∉ (currentQuestionOptionMapping pairs).map Prod.fst := by
  have hl : pairs.length = 5 := by
    have hlen := hperm.length_eq
    simpa [original_options] using hlen
  refine ⟨?_, ?_, displayOptions_eq pairs, ?_⟩
  · rw [mapping_snd]
    simpa [original_options] using hperm.map Prod.fst
  · obtain ⟨p1, p2, p3, p4, p5, rfl⟩ := length5_cases pairs hl
    show ([displayString 0 p1.2, displayString 1 p2.2, displayString 2 p3.2,
        displayString 3 p4.2, displayString 4 p5.2]).Nodup
    exact nodup_five _ _ _ _ _
      (displayString_ne 0 1 _ _ (by decide))
      (displayString_ne 0 2 _ _ (by decide))
      (displayString_ne 0 3 _ _ (by decide))
      (displayString_ne 0 4 _ _ (by decide))
      (displayString_ne 1 2 _ _ (by decide))
      (displayString_ne 1 3 _ _ (by decide))
      (displayString_ne 1 4 _ _ (by decide))
      (displayString_ne 2 3 _ _ (by decide))
      (displayString_ne 2 4 _ _ (by decide))
      (displayString_ne 3 4 _ _ (by decide))
  · obtain ⟨p1, p2, p3, p4, p5, rfl⟩ := length5_cases pairs hl
    show PLACEHOLDER ∉
      ([displayString 0 p1.2, displayString 1 p2.2, displayString 2 p3.2,
        displayString 3 p4.2, displayString 4 p5.2])
    exact not_mem_five _ _ _ _ _ _
      (placeholder_ne_displayString 0 _ (by decide))
      (placeholder_ne_displayString 1 _ (by decide))
      (placeholder_ne_displayString 2 _ (by decide))
      (placeholder_ne_displayString 3 _ (by decide))
      (placeholder_ne_displayString 4 _ (by decide))

/-- Witness for C10 at a concrete question row, with the identity
permutation of its option pairs. -/
theorem shuffled_options_permutation_witness :
    (original_options exQuestionRow).Perm (original_options exQuestionRow) ∧
      (((currentQuestionOptionMapping (original_options exQuestionRow)).map
            Prod.snd).Perm ["A", "B", "C", "D", "E"] ∧
        ((currentQuestionOptionMapping (original_options exQuestionRow)).map
            Prod.fst).Nodup ∧
        displayOptionsWithPlaceholder (original_options exQuestionRow) =
          PLACEHOLDER ::
            (currentQuestionOptionMapping (original_options exQuestionRow)).map
              Prod.fst ∧
        PLACEHOLDER ∉
          (currentQuestionOptionMapping (original_options exQuestionRow)).map
            Prod.fst) :=
  ⟨List.Perm.refl _,
    shuffled_options_permutation exQuestionRow (original_options exQuestionRow)
      (List.Perm.refl _)⟩
